import Mathlib

/-!
# Verification of the node-libxl binding layer

Shallow embedding of the two source files of the repository:

* `src/src/book.cc` — the `Book` wrapper class of the binding: synchronous and
  asynchronous methods that forward to the proprietary libxl library, plus the
  constructor that feeds the generated API key into the native `setKey` call.
* `src/unnamed/part_000` — the build-time provisioning script (JavaScript):
  extraction of the native library archive, the upward search for
  `libxl-license.json`, platform-dependent license-key selection, and the
  generation of the `src/api_key.h` header.

The proprietary libxl library itself is external: its calls are modelled as
oracles (result values supplied as inputs).  The `AsyncWorker` template
(`async_worker.h`) is code of this repository that is not under `src/`; where
its behaviour decides a claim it is modelled from the spec, and each such
definition is marked `Modelled from the spec:` in its doc comment.
-/

namespace NodeLibxl

/-! ## Provisioning script: platform detection and constants (part_000) -/

/-- `part_000` line 37: the directory holding pre-downloaded archives. -/
def dependencyArchiveDir : String := "deps_archive"

/-- `part_000` line 38: the dependency directory. -/
def dependencyDir : String := "deps"

/-- `part_000` line 39: `path.join(dependencyDir, 'libxl')`.  Path joins are
modelled with the `/` separator. -/
def libxlDir : String := dependencyDir ++ "/" ++ "libxl"

/-- `part_000` line 40: the FTP host of the (commented-out) download path. -/
def ftpHost : String := "xlware.com"

/-- `part_000` line 41: the license file name searched for up the tree. -/
def licenseFilename : String := "libxl-license.json"

/-- Anchored regular-expression test `/^pre/`: does the character list `p`
start the character list `s`?  (Executable structural recursion.) -/
def startsWithChars : List Char → List Char → Bool
  | [], _ => true
  | _ :: _, [] => false
  | p :: ps, c :: cs => p = c && startsWithChars ps cs

/-- Anchored match of a literal pattern at the start of a string, the meaning
of `s.match(/^pre/)` for a literal pattern `pre`. -/
def strStartsWith (s pre : String) : Bool := startsWithChars pre.data s.data

/-- `part_000` line 35: `isWin = !!os.platform().match(/^win/)`. -/
def isWin (platform : String) : Bool := strStartsWith platform "win"

/-- `part_000` line 36: `isMac = !!os.platform().match(/^darwin/)`. -/
def isMac (platform : String) : Bool := strStartsWith platform "darwin"

/-! ## License file model and key selection (part_000 lines 299-338)

A JavaScript object field that may be absent is an `Option`; `none` plays the
role of `undefined`. -/

/-- The `keys` object of `libxl-license.json` (see the expected shape quoted at
`part_000` lines 301-312). -/
structure LicenseKeys where
  windows : Option String
  mac : Option String
  linux : Option String
deriving Repr, DecidableEq

/-- The parsed `libxl-license.json`: an optional `licensee` property and the
`keys` object. -/
structure LicenseFile where
  licensee : Option String
  keys : LicenseKeys
deriving Repr, DecidableEq

/-- `part_000` lines 316-322: pick `keys['windows']` on Windows, `keys['mac']`
on darwin, `keys['linux']` otherwise. -/
def selectLicense (platform : String) (keys : LicenseKeys) : Option String :=
  if isWin platform then keys.windows
  else if isMac platform then keys.mac
  else keys.linux

/-- JavaScript falsiness of a possibly-absent string: `undefined` and the empty
string are falsy (`part_000` line 324: `if (!license)`). -/
def jsFalsyStr : Option String → Bool
  | none => true
  | some s => s.data.isEmpty

/-- JavaScript string coercion of a possibly-absent string, as performed by the
`+` concatenation at `part_000` lines 334-336: `undefined` prints as
`"undefined"`. -/
def jsToString : Option String → String
  | none => "undefined"
  | some s => s

/-- `part_000` lines 334-336: the generated contents of `src/api_key.h`. -/
def apiKeyFileContents (licensee : Option String) (license : String) : String :=
  "#define INCLUDE_API_KEY 1\n" ++
  "#define API_KEY_NAME \"" ++ jsToString licensee ++ "\"\n" ++
  "#define API_KEY_KEY \"" ++ license ++ "\"\n"

/-- Outcome of the licensing tail of the script (`part_000` lines 314-338):
either the process exits with a code, or the header is written.
`warnedMissingLicensee` records whether the `'licensee' in licenses` check at
line 330 fired (it only logs, it does not exit). -/
inductive LicenseStepResult where
  | exitCode (code : Nat)
  | headerWritten (contents : String) (warnedMissingLicensee : Bool)
deriving Repr, DecidableEq

/-- `part_000` lines 314-338: select the platform key, exit with code 1 when it
is falsy, otherwise warn when `licensee` is absent and write the header. -/
def licenseFlow (platform : String) (licenses : LicenseFile) : LicenseStepResult :=
  let license := selectLicense platform licenses.keys
  if jsFalsyStr license then .exitCode 1
  else .headerWritten (apiKeyFileContents licenses.licensee (jsToString license))
    licenses.licensee.isNone

example : licenseFlow "linux" ⟨some "Acme", ⟨none, none, some "K"⟩⟩ =
    .headerWritten (apiKeyFileContents (some "Acme") "K") false := by decide

example : licenseFlow "win32" ⟨some "Acme", ⟨none, none, some "K"⟩⟩ = .exitCode 1 := by
  decide

example : licenseFlow "darwin" ⟨none, ⟨none, some "M", none⟩⟩ =
    .headerWritten (apiKeyFileContents none "M") true := by decide

/-! ## Provisioning script: archive version comparator (part_000 lines 46-80) -/

/-- `part_000` lines 46-56: a decoded FTP directory entry for an archive file
`libxl-<system>-<version>.<suffix>`. -/
structure ArchiveFile where
  file : String
  system : String
  version : String
  suffix : String
deriving Repr, DecidableEq

/-- JavaScript `version.split('.')`: split a character list at every dot.  A
string is its list of characters here, so that every comparison below is
executable structural recursion. -/
def splitDot : List Char → List (List Char)
  | [] => [[]]
  | c :: cs =>
      if c = '.' then [] :: splitDot cs
      else
        match splitDot cs with
        | r :: rs => (c :: r) :: rs
        | [] => [[c]]

/-- `part_000` lines 58-60: `decodeVersion` splits the version string on dots.
The components stay character strings — they are never converted to
numbers. -/
def decodeVersion (f : ArchiveFile) : List (List Char) := splitDot f.version.data

/-- JavaScript `<` on two strings: lexicographic comparison of the character
sequences. -/
def ltChars : List Char → List Char → Bool
  | _, [] => false
  | [], _ :: _ => true
  | a :: as, b :: bs =>
      if a < b then true
      else if b < a then false
      else ltChars as bs

/-- `part_000` lines 63-67: the inner `cmp` of `compareFiles`.  JavaScript
`a > b` on strings is `b < a`. -/
def cmp (a b : List Char) : Int :=
  if ltChars b a then -1
  else if ltChars a b then 1
  else 0

/-- `part_000` lines 69-79: the loop of `compareFiles` over the common
components, and the final `v1.length > nibbles ? -1 : 1`:

* both lists exhausted together (`v1.length = nibbles`): result `1`;
* `v1` longer than `v2` (`v1.length > nibbles`): result `-1`;
* `v1` shorter: result `1`. -/
def compareVersions : List (List Char) → List (List Char) → Int
  | a :: as, b :: bs =>
      if cmp a b = 0 then compareVersions as bs else cmp a b
  | _ :: _, [] => -1
  | [], _ => 1

/-- `part_000` lines 62-80: the sort comparator over decoded archive files. -/
def compareFiles (file1 file2 : ArchiveFile) : Int :=
  compareVersions (decodeVersion file1) (decodeVersion file2)

/-- Two version-component lists agree on all common components (the components
the loop of `compareFiles` compares). -/
def agreeCommon : List (List Char) → List (List Char) → Bool
  | a :: as, b :: bs => if a = b then agreeCommon as bs else false
  | _, _ => true

example : decodeVersion ⟨"libxl-lin-3.6.2.tar.gz", "lin", "3.6.2", "tar.gz"⟩ =
    ["3".data, "6".data, "2".data] := by decide

/-! ## Provisioning script: main flow (part_000 lines 227-275)

The filesystem facts consumed by the script are inputs; the mutating steps it
performs are recorded as an action list.  The FTP download path exists in the
script (`download`, lines 43-215) but its invocation is commented out (lines
340-351); `ProvAction.ftpConnect` is the first action `download` would emit
(line 212: `ftpClient.connect({host: ftpHost})`), so the absence of
`ftpConnect` in a flow's actions means the flow never downloads. -/

/-- A mutating action of the provisioning script.  `extract` and `rename`
carry `Option String` because `finder` returns `null` when nothing matches. -/
inductive ProvAction where
  | mkdir (dir : String)
  | ftpConnect (host : String)
  | extract (file : Option String) (target : String)
  | rename (src : Option String) (dst : String)
deriving Repr, DecidableEq

/-- The filesystem state read by the main flow. -/
structure ProvisioningFS where
  libxlDirExists : Bool
  depsDirExists : Bool
  archiveFiles : List String
deriving Repr, DecidableEq

/-- `part_000` lines 237-248: `finder(dir, pattern)` returns
`path.join(dir, file)` for the first file matching the (anchored) pattern, and
`null` when none matches. -/
def finder (dir : String) (files : List String) (pre : String) : Option String :=
  (files.find? fun f => strStartsWith f pre).map fun f => dir ++ "/" ++ f

/-- `part_000` lines 259-266: the platform suffix of the archive to extract. -/
def platformSuffix (platform : String) : String :=
  if isWin platform then "win" else if isMac platform then "mac" else "lin"

/-- Result of the library-provisioning main flow: the actions performed, and
the exit code when `execute` (line 222) terminated the process because the
extraction command failed. -/
structure FlowResult where
  actions : List ProvAction
  exitCode : Option Nat
deriving Repr, DecidableEq

/-- `part_000` lines 250-275: when `deps/libxl` exists, do nothing; otherwise
create `deps` if missing, locate the platform archive in `deps_archive`,
extract it into `deps` and rename the extracted `libxl*` directory to
`deps/libxl`.  `extractOk` is the exit status of the extraction command
(`execute` calls `process.exit(1)` on failure); `depsAfter` lists the `deps`
directory contents seen by the `finder` call after extraction. -/
def libxlProvision (platform : String) (fs : ProvisioningFS) (extractOk : Bool)
    (depsAfter : List String) : FlowResult :=
  if fs.libxlDirExists then ⟨[], none⟩
  else
    let pre := if fs.depsDirExists then [] else [ProvAction.mkdir dependencyDir]
    let selected := finder dependencyArchiveDir fs.archiveFiles
      ("libxl-" ++ platformSuffix platform)
    if extractOk then
      ⟨pre ++ [ProvAction.extract selected dependencyDir,
               ProvAction.rename (finder dependencyDir depsAfter "libxl") libxlDir],
       none⟩
    else
      ⟨pre ++ [ProvAction.extract selected dependencyDir], some 1⟩

example :
    libxlProvision "linux" ⟨false, false, ["libxl-lin-3.6.2.tar.gz"]⟩ true ["libxl-3.6.2"] =
    ⟨[ProvAction.mkdir "deps",
      ProvAction.extract (some "deps_archive/libxl-lin-3.6.2.tar.gz") "deps",
      ProvAction.rename (some "deps/libxl-3.6.2") "deps/libxl"], none⟩ := by decide

example : libxlProvision "win32" ⟨true, true, []⟩ true [] = ⟨[], none⟩ := by decide

/-! ## Provisioning script: upward search for the license file
(part_000 lines 277-296)

A directory is its list of path components from the filesystem root; the root
is `[]`.  `path.resolve(path.join(dir, '..'))` drops the last component, and
the parent of the root is the root itself — exactly the condition
`parentDir == searchDir` the script uses to stop. -/

/-- The parent directory: `path.resolve(path.join(dir, '..'))`. -/
def parentDir (dir : List String) : List String := dir.dropLast

/-- Outcome of the `while (!licensePath)` loop at `part_000` lines 281-296,
observed after a bounded number of iterations: the license file was found in
`dir`, the process exited with code 1 at the root, or the loop is still
running. -/
inductive SearchOutcome where
  | found (dir : List String)
  | exitOne
  | stillRunning
deriving Repr, DecidableEq

/-- `part_000` lines 281-296, one constructor per loop iteration consumed from
`fuel`: check for `libxl-license.json` in the current directory, exit with
code 1 when the parent equals the current directory, otherwise continue in the
parent.  `hasLicense dir` is the `fs.existsSync` fact for
`path.join(dir, licenseFilename)`. -/
def searchLicense (hasLicense : List String → Bool) :
    Nat → List String → SearchOutcome
  | 0, _ => .stillRunning
  | fuel + 1, dir =>
      if hasLicense dir then .found dir
      else if parentDir dir = dir then .exitOne
      else searchLicense hasLicense fuel (parentDir dir)

example : searchLicense (fun d => d == ["home"]) 2 ["home", "app", "node_modules"] =
    .stillRunning := by decide

example : searchLicense (fun d => d == ["home"]) 4 ["home", "app", "node_modules"] =
    .found ["home"] := by decide

example : searchLicense (fun _ => false) 4 ["home", "app", "node_modules"] =
    .exitOne := by decide

/-! ## book.cc: the native book oracle and the constructor -/

/-- The outcomes of the native libxl calls made by `Book`'s methods, supplied
as an oracle: the proprietary library is external to this repository.  A
failing call makes `errorMessage` available to `util::ThrowLibxlError` /
`RaiseLibxlError`. -/
structure NativeBook where
  loadResult : String → Bool
  saveResult : String → Bool
  saveRawResult : Option (List Nat)
  loadRawResult : List Nat → Bool
  getPictureResult : Int → Option (Int × List Nat)
  addPictureResult : String → Int
  addPicture2Result : List Nat → Int
  errorMessage : String

/-- A native libxl call issued by `Book::New` (book.cc lines 58-97). -/
inductive NativeCall where
  | createBook
  | createXMLBook
  | setLocale (locale : String)
  | setKey (name : String) (key : String)
deriving Repr, DecidableEq

/-- The first argument of `Book::New` after the `switch` at book.cc lines
73-82: one of the two book-type constants, or anything else (the `default`
arm throws a TypeError). -/
inductive BookTypeArg where
  | xls
  | xlsx
  | other
deriving Repr, DecidableEq

/-- book.cc lines 58-97: the native calls `Book::New` performs on the fresh
libxl book, in order.  `apiKey` is `some (API_KEY_NAME, API_KEY_KEY)` when
`api_key.h` defined `INCLUDE_API_KEY` and the `setKey` call is compiled in,
`none` otherwise.  `none` as a result models the thrown TypeError for an
invalid book type: no book is created and no call is made. -/
def bookNewCalls (t : BookTypeArg) (apiKey : Option (String × String)) :
    Option (List NativeCall) :=
  match t with
  | .other => none
  | .xls => some ([NativeCall.createBook, NativeCall.setLocale "UTF-8"] ++
      (match apiKey with | some (n, k) => [NativeCall.setKey n k] | none => []))
  | .xlsx => some ([NativeCall.createXMLBook, NativeCall.setLocale "UTF-8"] ++
      (match apiKey with | some (n, k) => [NativeCall.setKey n k] | none => []))

/-- The `setKey` calls among a list of native calls. -/
def setKeyCalls (calls : List NativeCall) : List (String × String) :=
  calls.filterMap fun c =>
    match c with
    | NativeCall.setKey n k => some (n, k)
    | _ => none

example : bookNewCalls .xls (some ("Acme", "K")) =
    some [NativeCall.createBook, NativeCall.setLocale "UTF-8",
          NativeCall.setKey "Acme" "K"] := by decide

/-! ## book.cc: asynchronous workers

Each async method of `Book` defines a `Worker` whose `Execute` runs the
blocking native call and either records a success payload or raises the libxl
error; the surrounding `AsyncWorker` machinery (async_worker.h, not under
`src/`) then invokes the JavaScript callback once on the main thread. -/

/-- A JavaScript value handed to a callback. -/
inductive JsValue where
  | undefined
  | str (s : String)
  | buffer (data : List Nat)
  | int (n : Int)
deriving Repr, DecidableEq

/-- What a `Worker::Execute` run produced: the success arguments its
`HandleOKCallback` will pass to the callback, or the error message captured by
`RaiseLibxlError`. -/
inductive ExecOutcome where
  | success (okArgs : List JsValue)
  | failure (errorMessage : String)
deriving Repr, DecidableEq

/-- Modelled from the spec: the base `AsyncWorker` (async_worker.h, which is
not under `src/`) invokes the callback on success "with `undefined` in the
error slot"; for workers that do not override `HandleOKCallback` (load, write,
loadRaw) no further result argument is specified.  -/
def defaultOkArgs : List JsValue := [JsValue.undefined]

/-- book.cc lines 148-152, `Book::Load`'s `Worker::Execute`: run
`load(filename)`; raise the libxl error when it returns false. -/
def loadWorkerExecute (bk : NativeBook) (filename : String) : ExecOutcome :=
  if bk.loadResult filename then .success defaultOkArgs
  else .failure bk.errorMessage

/-- book.cc lines 203-207, `Book::Write`'s `Worker::Execute`: run
`save(filename)`; raise the libxl error when it returns false. -/
def writeWorkerExecute (bk : NativeBook) (filename : String) : ExecOutcome :=
  if bk.saveResult filename then .success defaultOkArgs
  else .failure bk.errorMessage

/-- book.cc lines 257-276, `Book::WriteRaw`'s `Worker`: `Execute` runs
`saveRaw`, copies the produced buffer on success and raises the libxl error on
failure; `HandleOKCallback` calls the callback with `(undefined, buffer)`. -/
def writeRawWorkerExecute (bk : NativeBook) : ExecOutcome :=
  match bk.saveRawResult with
  | none => .failure bk.errorMessage
  | some data => .success [JsValue.undefined, JsValue.buffer data]

/-- book.cc lines 329-333, `Book::LoadRaw`'s `Worker::Execute`: run
`loadRaw(buffer, size)`; raise the libxl error when it returns false. -/
def loadRawWorkerExecute (bk : NativeBook) (buf : List Nat) : ExecOutcome :=
  if bk.loadRawResult buf then .success defaultOkArgs
  else .failure bk.errorMessage

/-- book.cc lines 808-830, `Book::GetPictureAsync`'s `Worker`: `Execute` runs
`getPicture(index)`, raising the libxl error on `PICTURETYPE_ERROR` (modelled
as the `none` oracle result) and copying the picture buffer otherwise;
`HandleOKCallback` calls the callback with
`(undefined, pictureType, buffer)`. -/
def getPictureWorkerExecute (bk : NativeBook) (index : Int) : ExecOutcome :=
  match bk.getPictureResult index with
  | none => .failure bk.errorMessage
  | some (ptype, data) =>
      .success [JsValue.undefined, JsValue.int ptype, JsValue.buffer data]

/-- book.cc lines 901-917, `Book::AddPictureAsync`'s `FileWorker`: `Execute`
runs `addPicture(filename)`, raising the libxl error when it returns `-1`;
`HandleOKCallback` calls the callback with `(undefined, index)`. -/
def addPictureFileWorkerExecute (bk : NativeBook) (filename : String) : ExecOutcome :=
  if bk.addPictureResult filename = -1 then .failure bk.errorMessage
  else .success [JsValue.undefined, JsValue.int (bk.addPictureResult filename)]

/-- book.cc lines 932-948, `Book::AddPictureAsync`'s `BufferWorker`: `Execute`
runs `addPicture2(buffer, size)`, raising the libxl error when it returns
`-1`; `HandleOKCallback` calls the callback with `(undefined, index)`. -/
def addPictureBufferWorkerExecute (bk : NativeBook) (buf : List Nat) : ExecOutcome :=
  if bk.addPicture2Result buf = -1 then .failure bk.errorMessage
  else .success [JsValue.undefined, JsValue.int (bk.addPicture2Result buf)]

/-- Modelled from the spec: when the worker completes, the `AsyncWorker`
machinery (async_worker.h, not under `src/`) invokes the callback with the
"error captured as a string and surfaced to the callback's error slot" on
failure, and with the worker's `HandleOKCallback` arguments on success. -/
def workerCallbackArgs : ExecOutcome → List JsValue
  | .success args => args
  | .failure msg => [JsValue.str msg]

/-- The thread an event of an async method call runs on. -/
inductive Thread where
  | main
  | background
deriving Repr, DecidableEq

/-- The observable events of one asynchronous `Book` method call. -/
inductive AsyncEvent where
  | queueWorker
  | returnReceiver
  | executeNative
  | invokeCallback (args : List JsValue)
deriving Repr, DecidableEq

/-- Modelled from the spec: queuing and the method return happen on the
caller's (main) thread, the blocking native call runs "on a background
thread", and the callback is invoked "back onto the host's main thread". -/
def eventThread : AsyncEvent → Thread
  | .queueWorker => .main
  | .returnReceiver => .main
  | .executeNative => .background
  | .invokeCallback _ => .main

/-- Modelled from the spec: the life of one queued async worker — the method
queues the worker and returns, the worker's `Execute` performs the blocking
native call, and the callback is then invoked exactly once with the marshalled
result or error ("one worker thread per call, exactly-once callback
invocation"). -/
def asyncOpTrace (ex : ExecOutcome) : List AsyncEvent :=
  [AsyncEvent.queueWorker, AsyncEvent.returnReceiver, AsyncEvent.executeNative,
   AsyncEvent.invokeCallback (workerCallbackArgs ex)]

/-- Every async method of book.cc ends with `NanReturnValue(args.This())`: the
value the caller sees is the receiver, produced together with the worker's
event trace. -/
def asyncMethodResult {α : Type} (receiver : α) (ex : ExecOutcome) :
    α × List AsyncEvent :=
  (receiver, asyncOpTrace ex)

/-- The number of callback invocations in an event trace. -/
def countCallbacks (tr : List AsyncEvent) : Nat :=
  (tr.filter fun e =>
    match e with
    | AsyncEvent.invokeCallback _ => true
    | _ => false).length

example : countCallbacks (asyncOpTrace (ExecOutcome.failure "e")) = 1 := by decide

/-! ## Auxiliary predicates and sample inputs used by the statements -/

/-- Is an action the FTP connection that opens the `download` path? -/
def isFtpConnect : ProvAction → Bool
  | ProvAction.ftpConnect _ => true
  | _ => false

/-- One `#define` line of the generated header. -/
def defineLine (n v : String) : String := "#define " ++ n ++ " " ++ v ++ "\n"

/-- A double-quoted string, as it appears in the generated header. -/
def quoted (s : String) : String := "\"" ++ s ++ "\""

/-- The dispatch shape every asynchronous `Book` method shares: the caller
gets the receiver back, the trace queues the worker and returns before the
blocking native call, the native call runs on the background thread, and the
callback is invoked on the main thread with the marshalled outcome. -/
def dispatchWellFormed {α : Type} (receiver : α) (ex : ExecOutcome) : Prop :=
  (asyncMethodResult receiver ex).1 = receiver ∧
  (asyncMethodResult receiver ex).2 =
    [AsyncEvent.queueWorker, AsyncEvent.returnReceiver, AsyncEvent.executeNative,
     AsyncEvent.invokeCallback (workerCallbackArgs ex)] ∧
  eventThread AsyncEvent.queueWorker = Thread.main ∧
  eventThread AsyncEvent.returnReceiver = Thread.main ∧
  eventThread AsyncEvent.executeNative = Thread.background ∧
  eventThread (AsyncEvent.invokeCallback (workerCallbackArgs ex)) = Thread.main

/-- A concrete native-book oracle on which every native call fails. -/
def failingBook : NativeBook :=
  ⟨fun _ => false, fun _ => false, none, fun _ => false, fun _ => none,
   fun _ => -1, fun _ => -1, "native failure"⟩

/-- A concrete native-book oracle on which every native call succeeds. -/
def succeedingBook : NativeBook :=
  ⟨fun _ => true, fun _ => true, some [7, 8], fun _ => true,
   fun _ => some (2, [9]), fun _ => 3, fun _ => 4, "unused"⟩

/-! ## Helper lemmas -/

theorem ltChars_self (l : List Char) : ltChars l l = false := by
  induction l with
  | nil => rfl
  | cons a as ih => simp [ltChars, ih]

theorem cmp_self (a : List Char) : cmp a a = 0 := by
  simp [cmp, ltChars_self]

theorem compareVersions_agree (v1 : List (List Char)) :
    ∀ v2, agreeCommon v1 v2 = true →
      compareVersions v1 v2 = -1 ∨ compareVersions v1 v2 = 1 := by
  induction v1 with
  | nil => intro v2 h; right; rfl
  | cons a as ih =>
    intro v2 h
    cases v2 with
    | nil => left; rfl
    | cons b bs =>
      by_cases hab : a = b
      · subst hab
        have e : compareVersions (a :: as) (a :: bs) = compareVersions as bs := by
          simp [compareVersions, cmp_self]
        rw [e]
        exact ih bs (by simpa [agreeCommon] using h)
      · exact absurd h (by simp [agreeCommon, hab])

theorem searchLicense_found_has (hasLicense : List String → Bool) :
    ∀ (fuel : Nat) (dir d : List String),
      searchLicense hasLicense fuel dir = SearchOutcome.found d →
        hasLicense d = true := by
  intro fuel
  induction fuel with
  | zero => intro dir d h; exact absurd h (by simp [searchLicense])
  | succ n ih =>
    intro dir d h
    by_cases h1 : hasLicense dir = true
    · have : dir = d := by simpa [searchLicense, h1] using h
      subst this; exact h1
    · by_cases h2 : parentDir dir = dir
      · exact absurd h (by simp [searchLicense, h1, h2])
      · exact ih (parentDir dir) d (by simpa [searchLicense, h1, h2] using h)

theorem searchLicense_terminates_aux (hasLicense : List String → Bool) :
    ∀ (fuel : Nat) (dir : List String), dir.length < fuel →
      searchLicense hasLicense fuel dir ≠ SearchOutcome.stillRunning := by
  intro fuel
  induction fuel with
  | zero => intro dir h; exact absurd h (Nat.not_lt_zero _)
  | succ n ih =>
    intro dir hlen
    by_cases h1 : hasLicense dir = true
    · simp [searchLicense, h1]
    · by_cases h2 : parentDir dir = dir
      · simp [searchLicense, h1, h2]
      · have hne : dir ≠ [] := by
          intro he
          exact h2 (by simp [he, parentDir])
        have hlt : (parentDir dir).length < n := by
          have hdrop : (dir.dropLast).length = dir.length - 1 := List.length_dropLast dir
          have hpos : 0 < dir.length := List.length_pos.mpr hne
          simp only [parentDir, hdrop]
          omega
        have hres := ih (parentDir dir) hlt
        simpa [searchLicense, h1, h2] using hres

/-! ## Claim theorems -/

/-- **C1**: For every asynchronous book operation (load, write, writeRaw,
loadRaw, getPictureAsync, addPictureAsync in both its file and buffer forms),
once the queued worker completes, the supplied callback is invoked exactly
once — never zero times and never more than once — whatever the outcome of
the native call. -/
theorem async_callback_invoked_exactly_once (bk : NativeBook) (filename : String)
    (buf : List Nat) (index : Int) :
    countCallbacks (asyncOpTrace (loadWorkerExecute bk filename)) = 1 ∧
    countCallbacks (asyncOpTrace (writeWorkerExecute bk filename)) = 1 ∧
    countCallbacks (asyncOpTrace (writeRawWorkerExecute bk)) = 1 ∧
    countCallbacks (asyncOpTrace (loadRawWorkerExecute bk buf)) = 1 ∧
    countCallbacks (asyncOpTrace (getPictureWorkerExecute bk index)) = 1 ∧
    countCallbacks (asyncOpTrace (addPictureFileWorkerExecute bk filename)) = 1 ∧
    countCallbacks (asyncOpTrace (addPictureBufferWorkerExecute bk buf)) = 1 :=
  ⟨rfl, rfl, rfl, rfl, rfl, rfl, rfl⟩

/-- **C2**: For every asynchronous book operation, a failed native call makes
the callback receive the captured native error string as its first (error)
argument; a successful native call makes the first argument `undefined`, with
any result (the saved-raw buffer, the picture type and data, the picture
index) in the subsequent arguments. -/
theorem async_error_and_result_marshalling (bk : NativeBook) (filename : String)
    (buf : List Nat) (index : Int) :
    (bk.loadResult filename = false →
      workerCallbackArgs (loadWorkerExecute bk filename) =
        [JsValue.str bk.errorMessage]) ∧
    (bk.loadResult filename = true →
      workerCallbackArgs (loadWorkerExecute bk filename) = [JsValue.undefined]) ∧
    (bk.saveResult filename = false →
      workerCallbackArgs (writeWorkerExecute bk filename) =
        [JsValue.str bk.errorMessage]) ∧
    (bk.saveResult filename = true →
      workerCallbackArgs (writeWorkerExecute bk filename) = [JsValue.undefined]) ∧
    (bk.saveRawResult = none →
      workerCallbackArgs (writeRawWorkerExecute bk) = [JsValue.str bk.errorMessage]) ∧
    (∀ data, bk.saveRawResult = some data →
      workerCallbackArgs (writeRawWorkerExecute bk) =
        [JsValue.undefined, JsValue.buffer data]) ∧
    (bk.loadRawResult buf = false →
      workerCallbackArgs (loadRawWorkerExecute bk buf) =
        [JsValue.str bk.errorMessage]) ∧
    (bk.loadRawResult buf = true →
      workerCallbackArgs (loadRawWorkerExecute bk buf) = [JsValue.undefined]) ∧
    (bk.getPictureResult index = none →
      workerCallbackArgs (getPictureWorkerExecute bk index) =
        [JsValue.str bk.errorMessage]) ∧
    (∀ ptype data, bk.getPictureResult index = some (ptype, data) →
      workerCallbackArgs (getPictureWorkerExecute bk index) =
        [JsValue.undefined, JsValue.int ptype, JsValue.buffer data]) ∧
    (bk.addPictureResult filename = -1 →
      workerCallbackArgs (addPictureFileWorkerExecute bk filename) =
        [JsValue.str bk.errorMessage]) ∧
    (bk.addPictureResult filename ≠ -1 →
      workerCallbackArgs (addPictureFileWorkerExecute bk filename) =
        [JsValue.undefined, JsValue.int (bk.addPictureResult filename)]) ∧
    (bk.addPicture2Result buf = -1 →
      workerCallbackArgs (addPictureBufferWorkerExecute bk buf) =
        [JsValue.str bk.errorMessage]) ∧
    (bk.addPicture2Result buf ≠ -1 →
      workerCallbackArgs (addPictureBufferWorkerExecute bk buf) =
        [JsValue.undefined, JsValue.int (bk.addPicture2Result buf)]) := by
  refine ⟨?_, ?_, ?_, ?_, ?_, ?_, ?_, ?_, ?_, ?_, ?_, ?_, ?_, ?_⟩
  · intro h; simp [loadWorkerExecute, h, workerCallbackArgs]
  · intro h; simp [loadWorkerExecute, h, workerCallbackArgs, defaultOkArgs]
  · intro h; simp [writeWorkerExecute, h, workerCallbackArgs]
  · intro h; simp [writeWorkerExecute, h, workerCallbackArgs, defaultOkArgs]
  · intro h; simp [writeRawWorkerExecute, h, workerCallbackArgs]
  · intro data h; simp [writeRawWorkerExecute, h, workerCallbackArgs]
  · intro h; simp [loadRawWorkerExecute, h, workerCallbackArgs]
  · intro h; simp [loadRawWorkerExecute, h, workerCallbackArgs, defaultOkArgs]
  · intro h; simp [getPictureWorkerExecute, h, workerCallbackArgs]
  · intro ptype data h; simp [getPictureWorkerExecute, h, workerCallbackArgs]
  · intro h; simp [addPictureFileWorkerExecute, h, workerCallbackArgs]
  · intro h; simp [addPictureFileWorkerExecute, h, workerCallbackArgs]
  · intro h; simp [addPictureBufferWorkerExecute, h, workerCallbackArgs]
  · intro h; simp [addPictureBufferWorkerExecute, h, workerCallbackArgs]

/-- Witness for C2 at two concrete native-book oracles, one failing and one
succeeding. -/
theorem async_error_and_result_marshalling_witness :
    workerCallbackArgs (loadWorkerExecute failingBook "book.xls") =
      [JsValue.str "native failure"] ∧
    workerCallbackArgs (writeRawWorkerExecute failingBook) =
      [JsValue.str "native failure"] ∧
    workerCallbackArgs (getPictureWorkerExecute failingBook 0) =
      [JsValue.str "native failure"] ∧
    workerCallbackArgs (loadWorkerExecute succeedingBook "book.xls") =
      [JsValue.undefined] ∧
    workerCallbackArgs (writeRawWorkerExecute succeedingBook) =
      [JsValue.undefined, JsValue.buffer [7, 8]] ∧
    workerCallbackArgs (getPictureWorkerExecute succeedingBook 0) =
      [JsValue.undefined, JsValue.int 2, JsValue.buffer [9]] ∧
    workerCallbackArgs (addPictureFileWorkerExecute succeedingBook "pic.png") =
      [JsValue.undefined, JsValue.int 3] := by
  obtain ⟨f1, -, -, -, f5, -, -, -, f9, -, -, -, -, -⟩ :=
    async_error_and_result_marshalling failingBook "book.xls" [] 0
  obtain ⟨-, g2, -, -, -, g6, -, -, -, g10, -, g12, -, -⟩ :=
    async_error_and_result_marshalling succeedingBook "book.xls" [] 0
  obtain ⟨-, -, -, -, -, -, -, -, -, -, -, p12, -, -⟩ :=
    async_error_and_result_marshalling succeedingBook "pic.png" [] 0
  exact ⟨f1 rfl, f5 rfl, f9 rfl, g2 rfl, g6 [7, 8] rfl, g10 2 [9] rfl,
    p12 (by decide)⟩

/-- **C3**: Every asynchronous book method queues its blocking native call as
a worker, returns the receiver immediately to the caller, runs the native
call on a background thread, and has the callback invoked with the marshalled
result or error on the host's main thread. -/
theorem async_dispatch_background_and_return {α : Type} (receiver : α)
    (bk : NativeBook) (filename : String) (buf : List Nat) (index : Int) :
    dispatchWellFormed receiver (loadWorkerExecute bk filename) ∧
    dispatchWellFormed receiver (writeWorkerExecute bk filename) ∧
    dispatchWellFormed receiver (writeRawWorkerExecute bk) ∧
    dispatchWellFormed receiver (loadRawWorkerExecute bk buf) ∧
    dispatchWellFormed receiver (getPictureWorkerExecute bk index) ∧
    dispatchWellFormed receiver (addPictureFileWorkerExecute bk filename) ∧
    dispatchWellFormed receiver (addPictureBufferWorkerExecute bk buf) := by
  have base : ∀ ex : ExecOutcome, dispatchWellFormed receiver ex :=
    fun ex => ⟨rfl, rfl, rfl, rfl, rfl, rfl⟩
  exact ⟨base _, base _, base _, base _, base _, base _, base _⟩

/-- Counterexample to **C4** as stated: with `deps/libxl` absent, the complete
list of actions the provisioning flow performs contains no FTP connection at
all — the script extracts a local archive from `deps_archive` instead of
downloading (the `download` invocation at part_000 lines 340-351 is commented
out). -/
theorem provision_no_ftp_download_counterexample :
    (libxlProvision "linux" ⟨false, false, ["libxl-lin-3.6.2.tar.gz"]⟩ true
        ["libxl-3.6.2"]).actions =
      [ProvAction.mkdir "deps",
       ProvAction.extract (some "deps_archive/libxl-lin-3.6.2.tar.gz") "deps",
       ProvAction.rename (some "deps/libxl-3.6.2") "deps/libxl"] ∧
    ((libxlProvision "linux" ⟨false, false, ["libxl-lin-3.6.2.tar.gz"]⟩ true
        ["libxl-3.6.2"]).actions.filter isFtpConnect) = [] := by
  exact ⟨by decide, by decide⟩

/-- **C4 (amended)**: When the libxl dependency directory is absent, the
provisioning step selects the platform-appropriate archive from the local
`deps_archive` directory and extracts it into the dependency directory
(renaming the extracted directory to `deps/libxl` when extraction succeeds);
it performs no FTP download — the download routine exists but its invocation
is commented out. -/
theorem provision_extracts_local_archive (platform : String)
    (fs : ProvisioningFS) (extractOk : Bool) (depsAfter : List String)
    (h : fs.libxlDirExists = false) :
    ((libxlProvision platform fs extractOk depsAfter).actions.filter
        isFtpConnect) = [] ∧
    ProvAction.extract
        (finder dependencyArchiveDir fs.archiveFiles
          ("libxl-" ++ platformSuffix platform)) dependencyDir ∈
      (libxlProvision platform fs extractOk depsAfter).actions ∧
    (extractOk = true →
      ProvAction.rename (finder dependencyDir depsAfter "libxl") libxlDir ∈
        (libxlProvision platform fs extractOk depsAfter).actions) := by
  cases extractOk <;> cases hd : fs.depsDirExists <;>
    simp [libxlProvision, h, hd, isFtpConnect]

/-- Witness for C4 (amended) at a concrete filesystem state. -/
theorem provision_extracts_local_archive_witness :
    ((libxlProvision "linux" ⟨false, true, ["libxl-lin-4.0.0.tar.gz"]⟩ true
        ["libxl-4.0.0"]).actions.filter isFtpConnect) = [] ∧
    ProvAction.extract
        (finder dependencyArchiveDir ["libxl-lin-4.0.0.tar.gz"]
          ("libxl-" ++ platformSuffix "linux")) dependencyDir ∈
      (libxlProvision "linux" ⟨false, true, ["libxl-lin-4.0.0.tar.gz"]⟩ true
        ["libxl-4.0.0"]).actions ∧
    (true = true →
      ProvAction.rename (finder dependencyDir ["libxl-4.0.0"] "libxl") libxlDir ∈
        (libxlProvision "linux" ⟨false, true, ["libxl-lin-4.0.0.tar.gz"]⟩ true
          ["libxl-4.0.0"]).actions) :=
  provision_extracts_local_archive "linux" ⟨false, true, ["libxl-lin-4.0.0.tar.gz"]⟩
    true ["libxl-4.0.0"] rfl

/-- **C5**: The provisioning step generates a header of exactly three
`#define` lines — `INCLUDE_API_KEY` set to `1`, `API_KEY_NAME` set to the
licensee string, `API_KEY_KEY` set to the selected platform key — and
`Book::New`, when the key is compiled in, passes exactly those two strings to
the native `setKey` call (and nothing else to it). -/
theorem api_key_header_and_setkey (licensee : Option String) (license : String) :
    apiKeyFileContents licensee license =
      defineLine "INCLUDE_API_KEY" "1" ++
      defineLine "API_KEY_NAME" (quoted (jsToString licensee)) ++
      defineLine "API_KEY_KEY" (quoted license) ∧
    (∀ t calls, bookNewCalls t (some (jsToString licensee, license)) = some calls →
      setKeyCalls calls = [(jsToString licensee, license)]) ∧
    bookNewCalls BookTypeArg.other (some (jsToString licensee, license)) = none := by
  refine ⟨?_, ?_, rfl⟩
  · apply String.ext
    simp [apiKeyFileContents, defineLine, quoted, String.data_append]
  · intro t calls h
    cases t with
    | other => exact absurd h (by simp [bookNewCalls])
    | xls =>
        simp only [bookNewCalls, Option.some.injEq] at h
        subst h
        rfl
    | xlsx =>
        simp only [bookNewCalls, Option.some.injEq] at h
        subst h
        rfl

/-- Witness for C5 at a concrete licensee and key. -/
theorem api_key_header_and_setkey_witness :
    apiKeyFileContents (some "Acme Corp") "LINUX-KEY-1" =
      defineLine "INCLUDE_API_KEY" "1" ++
      defineLine "API_KEY_NAME" (quoted (jsToString (some "Acme Corp"))) ++
      defineLine "API_KEY_KEY" (quoted "LINUX-KEY-1") ∧
    setKeyCalls [NativeCall.createBook, NativeCall.setLocale "UTF-8",
        NativeCall.setKey (jsToString (some "Acme Corp")) "LINUX-KEY-1"] =
      [(jsToString (some "Acme Corp"), "LINUX-KEY-1")] :=
  ⟨(api_key_header_and_setkey (some "Acme Corp") "LINUX-KEY-1").1,
   (api_key_header_and_setkey (some "Acme Corp") "LINUX-KEY-1").2.1
     BookTypeArg.xls _ rfl⟩

/-- **C6**: The provisioning step selects the key named `windows` when the
platform starts with `win`, the key named `mac` on darwin, and the key named
`linux` on every other platform; when the selected key is absent or falsy it
exits with code 1 without writing the header. -/
theorem license_key_selection_and_exit (platform : String) (keys : LicenseKeys)
    (licensee : Option String) :
    (isWin platform = true → selectLicense platform keys = keys.windows) ∧
    (isWin platform = false → isMac platform = true →
      selectLicense platform keys = keys.mac) ∧
    (isWin platform = false → isMac platform = false →
      selectLicense platform keys = keys.linux) ∧
    (jsFalsyStr (selectLicense platform keys) = true →
      licenseFlow platform ⟨licensee, keys⟩ = LicenseStepResult.exitCode 1) := by
  refine ⟨?_, ?_, ?_, ?_⟩
  · intro h; simp [selectLicense, h]
  · intro h1 h2; simp [selectLicense, h1, h2]
  · intro h1 h2; simp [selectLicense, h1, h2]
  · intro h; simp [licenseFlow, h]

/-- Witness for C6 at concrete platforms and key files (falsy case: the
`linux` key present but empty). -/
theorem license_key_selection_and_exit_witness :
    selectLicense "win32" ⟨some "W", some "M", some "L"⟩ = some "W" ∧
    selectLicense "darwin" ⟨some "W", some "M", some "L"⟩ = some "M" ∧
    selectLicense "linux" ⟨some "W", some "M", some "L"⟩ = some "L" ∧
    licenseFlow "linux" ⟨some "Acme", ⟨some "W", some "M", some ""⟩⟩ =
      LicenseStepResult.exitCode 1 :=
  ⟨(license_key_selection_and_exit "win32" ⟨some "W", some "M", some "L"⟩
      none).1 (by decide),
   (license_key_selection_and_exit "darwin" ⟨some "W", some "M", some "L"⟩
      none).2.1 (by decide) (by decide),
   (license_key_selection_and_exit "linux" ⟨some "W", some "M", some "L"⟩
      none).2.2.1 (by decide) (by decide),
   (license_key_selection_and_exit "linux" ⟨some "W", some "M", some ""⟩
      (some "Acme")).2.2.2 (by decide)⟩

/-- **C7**: The library provisioning is one-time: when `deps/libxl` already
exists, the flow performs no action at all — no extraction, no renaming, no
directory creation — and does not exit. -/
theorem provision_noop_when_libxl_exists (platform : String)
    (fs : ProvisioningFS) (extractOk : Bool) (depsAfter : List String)
    (h : fs.libxlDirExists = true) :
    libxlProvision platform fs extractOk depsAfter = ⟨[], none⟩ := by
  simp [libxlProvision, h]

/-- Witness for C7 at a concrete filesystem state. -/
theorem provision_noop_when_libxl_exists_witness :
    libxlProvision "darwin" ⟨true, false, ["libxl-mac-4.0.0.tar.gz"]⟩ true [] =
      ⟨[], none⟩ :=
  provision_noop_when_libxl_exists "darwin" ⟨true, false, ["libxl-mac-4.0.0.tar.gz"]⟩
    true [] rfl

/-- **C8**: The upward search for `libxl-license.json` terminates for every
starting directory: within `dir.length + 1` iterations the loop has either
found the file in some directory (and only in a directory that has it) or hit
the filesystem root and exited with code 1 — it cannot still be running. -/
theorem license_search_terminates (hasLicense : List String → Bool)
    (dir : List String) :
    searchLicense hasLicense (dir.length + 1) dir ≠ SearchOutcome.stillRunning ∧
    (∀ d, searchLicense hasLicense (dir.length + 1) dir = SearchOutcome.found d →
      hasLicense d = true) :=
  ⟨searchLicense_terminates_aux hasLicense _ dir (Nat.lt_succ_self _),
   fun d h => searchLicense_found_has hasLicense _ dir d h⟩

/-- Witness for C8 at a concrete directory tree. -/
theorem license_search_terminates_witness :
    searchLicense (fun d => d == ["home"]) 3 ["home", "app"] ≠
      SearchOutcome.stillRunning ∧
    (fun (d : List String) => d == ["home"]) ["home"] = true :=
  ⟨(license_search_terminates (fun d => d == ["home"]) ["home", "app"]).1,
   (license_search_terminates (fun d => d == ["home"]) ["home", "app"]).2
     ["home"] (by decide)⟩

/-- **C9**: `compareFiles` compares version components as strings, not
numbers — concretely, version `"10"` orders after version `"9"` although
`10 > 9` numerically — and for every pair of files whose versions agree on
all common components (identical versions included) it returns a nonzero
result, never `0`. -/
theorem compareFiles_string_order_and_nonzero :
    (compareFiles ⟨"libxl-lin-10.tar.gz", "lin", "10", "tar.gz"⟩
        ⟨"libxl-lin-9.tar.gz", "lin", "9", "tar.gz"⟩ = 1 ∧
      (10 : Nat) > 9) ∧
    ∀ f1 f2 : ArchiveFile,
      agreeCommon (decodeVersion f1) (decodeVersion f2) = true →
        compareFiles f1 f2 ≠ 0 := by
  refine ⟨⟨by decide, by decide⟩, ?_⟩
  intro f1 f2 h hzero
  rcases compareVersions_agree (decodeVersion f1) (decodeVersion f2) h with h1 | h1 <;>
    · simp only [compareFiles] at hzero
      omega

/-- Witness for C9 at two identical concrete archive files. -/
theorem compareFiles_string_order_and_nonzero_witness :
    agreeCommon
        (decodeVersion ⟨"libxl-lin-3.6.2.tar.gz", "lin", "3.6.2", "tar.gz"⟩)
        (decodeVersion ⟨"libxl-lin-3.6.2.tar.gz", "lin", "3.6.2", "tar.gz"⟩) =
      true ∧
    compareFiles ⟨"libxl-lin-3.6.2.tar.gz", "lin", "3.6.2", "tar.gz"⟩
      ⟨"libxl-lin-3.6.2.tar.gz", "lin", "3.6.2", "tar.gz"⟩ ≠ 0 :=
  ⟨by decide,
   compareFiles_string_order_and_nonzero.2
     ⟨"libxl-lin-3.6.2.tar.gz", "lin", "3.6.2", "tar.gz"⟩
     ⟨"libxl-lin-3.6.2.tar.gz", "lin", "3.6.2", "tar.gz"⟩ (by decide)⟩

/-- **C10**: When the license file has no `licensee` field but a valid
platform key, the provisioning step does not terminate: it records the
warning and still writes the header, embedding the missing (`undefined`)
licensee value into the `API_KEY_NAME` define. -/
theorem missing_licensee_still_writes_header (platform : String)
    (keys : LicenseKeys) (h : jsFalsyStr (selectLicense platform keys) = false) :
    licenseFlow platform ⟨none, keys⟩ =
      LicenseStepResult.headerWritten
        (apiKeyFileContents none (jsToString (selectLicense platform keys))) true ∧
    jsToString (none : Option String) = "undefined" ∧
    (∀ license : String,
      apiKeyFileContents none license =
        apiKeyFileContents (some "undefined") license) := by
  refine ⟨by simp [licenseFlow, h], rfl, fun license => rfl⟩

/-- Witness for C10 at a concrete license file lacking `licensee`. -/
theorem missing_licensee_still_writes_header_witness :
    licenseFlow "linux" ⟨none, ⟨none, none, some "K"⟩⟩ =
      LicenseStepResult.headerWritten
        (apiKeyFileContents none
          (jsToString (selectLicense "linux" ⟨none, none, some "K"⟩))) true :=
  (missing_licensee_still_writes_header "linux" ⟨none, none, some "K"⟩
    (by decide)).1

end NodeLibxl
